import Mathlib

/-!
Verification of the gold-price proxy-cache service (`main.go`).

The embedding models the two central functions of the program:

* `fetchAndCache` — one poll cycle: overlap guard via a non-blocking
  try-lock (modelled by an explicit `busy` flag), the upstream HTTP
  outcome (modelled by `UpstreamResult`), symbol lookup, validation,
  Toman→Rial conversion, name fallback, and the SQLite upsert (modelled
  as replacing the single `Option Row` cell; a failing upsert is the
  `dbOk = false` case).
* `handleGold18k` — the read handler: row lookup, RFC3339 parsing with
  the error discarded (parse failure yields the Go zero time), staleness
  computation, and the HTTP response.

Time is measured in integer nanoseconds (Go `time.Duration` units),
with the Go zero time as origin. The upstream `price` field is a Go
`float64`; it is embedded as a rational number, and the Go conversion
`int64(x)` (truncation toward zero) as `f64TruncToInt64`. Every
concrete price appearing in a theorem below is exactly representable
as a float64 and its arithmetic here is exact, so the rational model
agrees with the float computation on those inputs.
-/

/-- A single market item from the BRS API (`BrsApiItem` in main.go). -/
structure BrsApiItem where
  symbol : String
  name : String
  price : ℚ
  deriving Repr, DecidableEq

/-- The shape of the BRS API response (`BrsApiResponse` in main.go). -/
structure BrsApiResponse where
  gold : List BrsApiItem
  deriving Repr, DecidableEq

/-- One row of the `gold_prices` table (the single row with symbol
`gold_18k`); `fetched_at` is stored as text, exactly as in the schema. -/
structure Row where
  name : String
  price_rial : ℤ
  fetched_at : String
  deriving Repr, DecidableEq

/-- Outcome of the upstream HTTP exchange as seen by `fetchAndCache`,
covering each early-return branch of the Go code before the symbol
lookup: request construction failure, transport failure, non-200
status, JSON decode failure, or a decoded body. -/
inductive UpstreamResult where
  | reqError (msg : String)
  | httpError (msg : String)
  | badStatus (code : ℕ)
  | badJson (msg : String)
  | response (r : BrsApiResponse)
  deriving Repr, DecidableEq

/-- The observable effects of one `fetchAndCache` call: the returned
`error` value (`none` = nil), the cache cell afterwards, whether the
network call was issued, and whether the overlap-skip was logged. -/
structure FetchEffects where
  err : Option String
  store : Option Row
  fetched : Bool
  skipped : Bool
  deriving Repr, DecidableEq

/-- Go `int64(x)` conversion of a float64: truncation toward zero. -/
def f64TruncToInt64 (q : ℚ) : ℤ := q.num.tdiv q.den

/-- The linear scan of `apiResp.Gold` for the first entry with symbol
`IR_GOLD_18K` (main.go lines 202–209). -/
def findGold18k (gold : List BrsApiItem) : Option BrsApiItem :=
  gold.find? (fun it => it.symbol = "IR_GOLD_18K")

/-- The fixed fallback display name (main.go line 219). -/
def fallbackName : String := "طلای 18 عیار"

/-- `fetchAndCache` (main.go lines 171–239). `busy` is true when
`pollMu.TryLock()` fails (a previous cycle still holds the lock);
`up` is the outcome of the upstream exchange; `dbOk` is whether the
upsert `Exec` succeeds; `nowStr` is the formatted current time;
`store` is the cache cell before the call. -/
def fetchAndCache (busy : Bool) (up : UpstreamResult) (dbOk : Bool) (nowStr : String)
    (store : Option Row) : FetchEffects :=
  if busy then
    ⟨none, store, false, true⟩
  else
    match up with
    | .reqError m => ⟨some ("creating request failed: " ++ m), store, false, false⟩
    | .httpError m => ⟨some ("HTTP request failed: " ++ m), store, true, false⟩
    | .badStatus c => ⟨some ("API returned status " ++ toString c), store, true, false⟩
    | .badJson m => ⟨some ("JSON decode failed: " ++ m), store, true, false⟩
    | .response r =>
      match findGold18k r.gold with
      | none => ⟨some "IR_GOLD_18K not found in API response", store, true, false⟩
      | some it =>
        if it.price = 0 then
          ⟨some "IR_GOLD_18K not found in API response", store, true, false⟩
        else
          let priceRial := f64TruncToInt64 (it.price * 10)
          let name := if it.name = "" then fallbackName else it.name
          if dbOk then
            ⟨none, some ⟨name, priceRial, nowStr⟩, true, false⟩
          else
            ⟨some "DB upsert failed", store, true, false⟩

/-- The Go zero time (`time.Time{}`), the origin of our nanosecond
timeline; `time.Parse` returns it when parsing fails. -/
def goZeroTime : ℤ := 0

/-- `staleThreshold = 5 * time.Minute` (main.go line 43), in nanoseconds. -/
def staleThreshold : ℤ := 5 * 60 * 1000000000

/-- The JSON document sent by the read handler: either the encoded
`GoldPrice` record or the error object with the given message. -/
inductive HttpBody where
  | goldJson (name : String) (price : ℤ) (fetchedAt : String) (stale : Bool)
  | errorJson (msg : String)
  deriving Repr, DecidableEq

/-- An HTTP response: status code and JSON body. -/
structure HttpResponse where
  status : ℕ
  body : HttpBody
  deriving Repr, DecidableEq

/-- `handleGold18k` (main.go lines 137–164). `parseRFC3339` models
`time.Parse (time.RFC3339, ·)` (`none` = parse error, in which case the
Go code discards the error and keeps the zero time); `now` is the
current read time in nanoseconds; `store` is the cache cell. -/
def handleGold18k (parseRFC3339 : String → Option ℤ) (now : ℤ)
    (store : Option Row) : HttpResponse :=
  match store with
  | none => ⟨503, .errorJson "no cached price available"⟩
  | some row =>
    let fetchedAt := (parseRFC3339 row.fetched_at).getD goZeroTime
    let stale := decide (staleThreshold < now - fetchedAt)
    ⟨200, .goldJson row.name row.price_rial row.fetched_at stale⟩

/-- `envOrDefault` (main.go lines 241–246): `os.Getenv` yields `""`
for an unset variable, in which case the fallback is used. -/
def envOrDefault (v fallback : String) : String :=
  if v = "" then fallback else v

/-- A decimal digit's value, `none` for a non-digit character. -/
def decDigit? (c : Char) : Option ℕ :=
  if '0' ≤ c ∧ c ≤ '9' then some (c.toNat - '0'.toNat) else none

/-- Accumulate decimal digits; fails on the first non-digit. -/
def decDigitsAux : List Char → ℕ → Option ℕ
  | [], acc => some acc
  | c :: cs, acc =>
    match decDigit? c with
    | some d => decDigitsAux cs (acc * 10 + d)
    | none => none

/-- A non-empty all-digit string's value. -/
def decDigits? : List Char → Option ℕ
  | [] => none
  | cs => decDigitsAux cs 0

/-- The successful-parse part of Go `strconv.Atoi`: an optional sign
followed by at least one decimal digit. -/
def goAtoiCore (s : String) : Option ℤ :=
  match s.toList with
  | '+' :: rest => (decDigits? rest).map Int.ofNat
  | '-' :: rest => (decDigits? rest).map (fun n => -(n : ℤ))
  | cs => (decDigits? cs).map Int.ofNat

/-- Go `strconv.Atoi`: on a syntax error it returns the value `0`
together with a non-nil error (the Bool is `false` on error). -/
def goAtoi (s : String) : ℤ × Bool :=
  match goAtoiCore s with
  | some v => (v, true)
  | none => (0, false)

/-- `pollSeconds` in main.go line 53: the Atoi error is discarded. -/
def pollSecondsOf (env : String) : ℤ :=
  (goAtoi (envOrDefault env "60")).1

/-- `pollInterval` in main.go line 54, in nanoseconds
(`time.Duration(pollSeconds) * time.Second`). -/
def pollIntervalNs (env : String) : ℤ :=
  pollSecondsOf env * 1000000000

/-- Go `time.NewTicker` (main.go line 89) panics exactly when the
requested duration is non-positive. -/
def newTickerPanics (d : ℤ) : Prop := d ≤ 0

/-- The inputs of one poll cycle: lock contention, upstream outcome,
upsert success, and the formatted current time. -/
structure CycleInput where
  busy : Bool
  up : UpstreamResult
  dbOk : Bool
  nowStr : String
  deriving Repr, DecidableEq

/-- The cache cell after one `fetchAndCache` cycle. -/
def cycleStep (st : Option Row) (c : CycleInput) : Option Row :=
  (fetchAndCache c.busy c.up c.dbOk c.nowStr st).store

/-- The cache cell after a whole sequence of poll cycles. -/
def runCycles (init : Option Row) (cs : List CycleInput) : Option Row :=
  cs.foldl cycleStep init

/-- Specification-side description of one cycle: the row the cycle
writes, or `none` when the cycle does not reach the upsert (skip,
upstream failure, validation failure) or the upsert fails. -/
def cycleWrite (c : CycleInput) : Option Row :=
  if c.busy then none
  else
    match c.up with
    | .response r =>
      match findGold18k r.gold with
      | some it =>
        if it.price = 0 then none
        else if c.dbOk then
          some ⟨if it.name = "" then fallbackName else it.name,
                f64TruncToInt64 (it.price * 10), c.nowStr⟩
        else none
      | none => none
    | _ => none

/-- Specification-side description of a sequence of cycles: the row
written by the last successfully writing cycle, if any. -/
def lastWrite : List CycleInput → Option Row
  | [] => none
  | c :: cs =>
    match lastWrite cs with
    | some row => some row
    | none => cycleWrite c

/-! ## Helper lemmas -/

/-- Truncation agrees with the integer itself on integer values. -/
lemma f64TruncToInt64_intCast (n : ℤ) : f64TruncToInt64 (n : ℚ) = n := by
  unfold f64TruncToInt64
  rw [Rat.num_intCast, Rat.den_intCast, Nat.cast_one, Int.tdiv_one]

/-- Truncation toward zero agrees with the floor on non-negative rationals. -/
lemma f64TruncToInt64_eq_floor (q : ℚ) (h : 0 ≤ q) : f64TruncToInt64 q = ⌊q⌋ := by
  unfold f64TruncToInt64
  rw [Int.tdiv_eq_ediv (Rat.num_nonneg.mpr h) (Int.ofNat_nonneg _), Rat.floor_def]

/-- Truncation of a rational that is at least 1 is at least 1. -/
lemma one_le_f64TruncToInt64 (q : ℚ) (h : 1 ≤ q) : 1 ≤ f64TruncToInt64 q := by
  rw [f64TruncToInt64_eq_floor q (le_trans zero_le_one h)]
  exact Int.le_floor.mpr (by exact_mod_cast h)

/-- A failed `goAtoi` carries the value 0. -/
lemma goAtoi_val_of_err (s : String) (h : (goAtoi s).2 = false) : (goAtoi s).1 = 0 := by
  unfold goAtoi at h ⊢
  cases hc : goAtoiCore s <;> simp [hc] at h ⊢

/-- One cycle's effect on the cache: the written row if the cycle
writes, the previous cell otherwise. -/
lemma cycleStep_eq_getD (st : Option Row) (c : CycleInput) :
    cycleStep st c = ((cycleWrite c).map some).getD st := by
  obtain ⟨busy, up, dbOk, nowStr⟩ := c
  cases busy with
  | true => simp [cycleStep, fetchAndCache, cycleWrite]
  | false =>
    cases up with
    | reqError m => simp [cycleStep, fetchAndCache, cycleWrite]
    | httpError m => simp [cycleStep, fetchAndCache, cycleWrite]
    | badStatus code => simp [cycleStep, fetchAndCache, cycleWrite]
    | badJson m => simp [cycleStep, fetchAndCache, cycleWrite]
    | response r =>
      cases hfind : findGold18k r.gold with
      | none => simp [cycleStep, fetchAndCache, cycleWrite, hfind]
      | some it =>
        by_cases hp : it.price = 0
        · simp [cycleStep, fetchAndCache, cycleWrite, hfind, hp]
        · cases dbOk <;> simp [cycleStep, fetchAndCache, cycleWrite, hfind, hp]

/-- After a sequence of cycles the cache holds the last written row,
or the initial cell when no cycle wrote. -/
lemma runCycles_eq_lastWrite (init : Option Row) (cs : List CycleInput) :
    runCycles init cs = ((lastWrite cs).map some).getD init := by
  induction cs generalizing init with
  | nil => rfl
  | cons c cs ih =>
    have hstep : runCycles init (c :: cs) = runCycles (cycleStep init c) cs := rfl
    rw [hstep, ih, cycleStep_eq_getD]
    cases hl : lastWrite cs with
    | some row => simp [lastWrite, hl]
    | none => cases hw : cycleWrite c <;> simp [lastWrite, hl, hw]

/-! ## Claims -/

/-- Claim C1, amended: for every upstream response in which the entry
with symbol IR_GOLD_18K is absent, or is present with price exactly 0,
`fetchAndCache` returns the data error and performs no write, leaving
the cached row unchanged. (As originally stated — with "0 or negative"
— the claim is false: see the counterexample.) -/
theorem C1_absent_or_zero_price_rejected (r : BrsApiResponse) (dbOk : Bool)
    (nowStr : String) (store : Option Row)
    (h : findGold18k r.gold = none ∨ ∃ it, findGold18k r.gold = some it ∧ it.price = 0) :
    (fetchAndCache false (.response r) dbOk nowStr store).err
        = some "IR_GOLD_18K not found in API response" ∧
    (fetchAndCache false (.response r) dbOk nowStr store).store = store := by
  rcases h with h | ⟨it, hfind, hp⟩
  · simp [fetchAndCache, h]
  · simp [fetchAndCache, hfind, hp]

/-- Witness for C1: a response with an empty gold list is rejected and
an existing cached row survives. -/
theorem C1_absent_or_zero_price_rejected_witness :
    (fetchAndCache false (.response ⟨[]⟩) true "t" (some ⟨"g", 5, "s"⟩)).err
        = some "IR_GOLD_18K not found in API response" ∧
    (fetchAndCache false (.response ⟨[]⟩) true "t" (some ⟨"g", 5, "s"⟩)).store
        = some ⟨"g", 5, "s"⟩ :=
  C1_absent_or_zero_price_rejected ⟨[]⟩ true "t" (some ⟨"g", 5, "s"⟩) (Or.inl rfl)

/-- Counterexample to C1 as stated: the validation tests `price == 0`
only, so the strictly negative price −1 passes it; `fetchAndCache`
returns nil error and overwrites the cached row, where the claim
demands an error and no write. -/
theorem C1_negative_price_accepted :
    (fetchAndCache false (.response ⟨[⟨"IR_GOLD_18K", "x", -1⟩]⟩) true "t"
        (some ⟨"g", 5, "s"⟩)).err = none ∧
    (fetchAndCache false (.response ⟨[⟨"IR_GOLD_18K", "x", -1⟩]⟩) true "t"
        (some ⟨"g", 5, "s"⟩)).store = some ⟨"x", -10, "t"⟩ := by
  have hval : f64TruncToInt64 (-10 : ℚ) = -10 := by
    rw [show (-10 : ℚ) = ((-10 : ℤ) : ℚ) by norm_num, f64TruncToInt64_intCast]
  refine ⟨?_, ?_⟩
  · simp [fetchAndCache, findGold18k]
  · simp [fetchAndCache, findGold18k]
    norm_num [hval]

/-- Claim C2: a poll cycle that does not write leaves the cache cell
exactly as it was, and after any sequence of cycles the cache holds the
row written by the last writing cycle — or the initial cell when no
cycle of the sequence wrote. -/
theorem C2_last_successful_fetch_wins (init : Option Row) (cs : List CycleInput) :
    (∀ (st : Option Row) (c : CycleInput),
        cycleStep st c = ((cycleWrite c).map some).getD st) ∧
    runCycles init cs = ((lastWrite cs).map some).getD init :=
  ⟨cycleStep_eq_getD, runCycles_eq_lastWrite init cs⟩

/-- Counterexample to C3 as stated: the accepted upstream price −5
persists the strictly negative value −50. -/
theorem C3_negative_value_persisted :
    (fetchAndCache false (.response ⟨[⟨"IR_GOLD_18K", "x", -5⟩]⟩) true "t" none).store
        = some ⟨"x", -50, "t"⟩ ∧ ¬ (0 < (-50 : ℤ)) := by
  have hval : f64TruncToInt64 (-50 : ℚ) = -50 := by
    rw [show (-50 : ℚ) = ((-50 : ℤ) : ℚ) by norm_num, f64TruncToInt64_intCast]
  refine ⟨?_, by norm_num⟩
  simp [fetchAndCache, findGold18k]
  norm_num [hval]

/-- Claim C3, amended: the persisted value is the truncation of ten
times the accepted upstream price, and it is strictly positive whenever
that price is at least 1/10 — but validation does not ensure this: an
accepted negative price persists a negative value (see the
counterexample). -/
theorem C3_positive_price_persisted (r : BrsApiResponse) (it : BrsApiItem)
    (nowStr : String) (st : Option Row)
    (hfind : findGold18k r.gold = some it) (hp : 1 / 10 ≤ it.price) :
    ∃ row : Row, (fetchAndCache false (.response r) true nowStr st).store = some row ∧
      row.price_rial = f64TruncToInt64 (it.price * 10) ∧ 0 < row.price_rial := by
  have hpos : (0 : ℚ) < it.price := lt_of_lt_of_le (by norm_num) hp
  have hp0 : it.price ≠ 0 := ne_of_gt hpos
  have h1 : (1 : ℚ) ≤ it.price * 10 := by linarith
  have h2 : (1 : ℤ) ≤ f64TruncToInt64 (it.price * 10) := one_le_f64TruncToInt64 _ h1
  refine ⟨⟨if it.name = "" then fallbackName else it.name,
      f64TruncToInt64 (it.price * 10), nowStr⟩, ?_,
    rfl, lt_of_lt_of_le zero_lt_one h2⟩
  simp [fetchAndCache, hfind, hp0]

/-- Witness for C3 (amended): the upstream price 4250000 is persisted
as the positive value 42500000. -/
theorem C3_positive_price_persisted_witness :
    ∃ row : Row,
      (fetchAndCache false (.response ⟨[⟨"IR_GOLD_18K", "g", 4250000⟩]⟩) true "t"
          none).store = some row ∧
      row.price_rial = f64TruncToInt64 ((4250000 : ℚ) * 10) ∧ 0 < row.price_rial :=
  C3_positive_price_persisted ⟨[⟨"IR_GOLD_18K", "g", 4250000⟩]⟩
    ⟨"IR_GOLD_18K", "g", 4250000⟩ "t" none (by simp [findGold18k]) (by norm_num)

/-- Claim C4: staleness is recomputed on each read from the current
time and the stored timestamp alone, as `(now − fetchedAt) >
staleThreshold`; with the same stored row and no intervening write, a
read within the threshold reports stale = false and a read beyond it
reports stale = true. -/
theorem C4_staleness_pure_of_read_time (parse : String → Option ℤ) (row : Row)
    (t t1 t2 : ℤ) (hparse : parse row.fetched_at = some t)
    (h1 : ¬ staleThreshold < t1 - t) (h2 : staleThreshold < t2 - t) :
    handleGold18k parse t1 (some row)
        = ⟨200, .goldJson row.name row.price_rial row.fetched_at false⟩ ∧
    handleGold18k parse t2 (some row)
        = ⟨200, .goldJson row.name row.price_rial row.fetched_at true⟩ := by
  constructor <;> simp [handleGold18k, hparse, h1, h2]

/-- Witness for C4: a row fetched at time 0, read at time 0 (fresh) and
at one nanosecond past the five-minute threshold (stale). -/
theorem C4_staleness_pure_of_read_time_witness :
    handleGold18k (fun _ => some 0) 0 (some ⟨"g", 1, "s"⟩)
        = ⟨200, .goldJson "g" 1 "s" false⟩ ∧
    handleGold18k (fun _ => some 0) 300000000001 (some ⟨"g", 1, "s"⟩)
        = ⟨200, .goldJson "g" 1 "s" true⟩ :=
  C4_staleness_pure_of_read_time (fun _ => some 0) ⟨"g", 1, "s"⟩ 0 0 300000000001
    rfl (by norm_num [staleThreshold]) (by norm_num [staleThreshold])

/-- Claim C5: a read with no cached row yields exactly the 503 response
with the "no cached price available" error body — never a 200 with a
placeholder record — and a read with a row yields a 200 whose body
carries the row's name, price, fetchedAt and a staleness bit. -/
theorem C5_unavailable_vs_present (parse : String → Option ℤ) (now : ℤ) :
    handleGold18k parse now none = ⟨503, .errorJson "no cached price available"⟩ ∧
    ∀ row : Row, ∃ st : Bool,
      handleGold18k parse now (some row)
          = ⟨200, .goldJson row.name row.price_rial row.fetched_at st⟩ :=
  ⟨rfl, fun _ => ⟨_, rfl⟩⟩

/-- Claim C6: the unit conversion multiplies the upstream major-unit
price by exactly 10 (on integral prices the truncation is exact), and
the upstream price 4250000 is persisted as 42500000. -/
theorem C6_toman_to_rial_times_ten :
    (∀ n : ℤ, f64TruncToInt64 ((n : ℚ) * 10) = 10 * n) ∧
    (fetchAndCache false (.response ⟨[⟨"IR_GOLD_18K", "g", 4250000⟩]⟩) true "t"
        none).store = some ⟨"g", 42500000, "t"⟩ := by
  constructor
  · intro n
    rw [show ((n : ℚ) * 10) = ((10 * n : ℤ) : ℚ) by push_cast; ring,
      f64TruncToInt64_intCast]
  · have hval : f64TruncToInt64 (42500000 : ℚ) = 42500000 := by
      rw [show (42500000 : ℚ) = ((42500000 : ℤ) : ℚ) by norm_num, f64TruncToInt64_intCast]
    simp [fetchAndCache, findGold18k]
    norm_num [hval]

/-- Claim C7: when the try-lock fails (a fetch is already in flight),
`fetchAndCache` performs no network call and no write, logs the skip,
and returns nil error, for every upstream outcome and cache state. -/
theorem C7_overlapping_tick_skipped (up : UpstreamResult) (dbOk : Bool)
    (nowStr : String) (store : Option Row) :
    fetchAndCache true up dbOk nowStr store = ⟨none, store, false, true⟩ := rfl

/-- Claim C8: a validated entry with an empty name is written under the
fixed fallback display name, and a non-empty upstream name is written
unchanged. -/
theorem C8_empty_name_fallback (r : BrsApiResponse) (it : BrsApiItem)
    (nowStr : String) (st : Option Row)
    (hfind : findGold18k r.gold = some it) (hp : it.price ≠ 0) :
    ∃ row : Row, (fetchAndCache false (.response r) true nowStr st).store = some row ∧
      row.name = (if it.name = "" then "طلای 18 عیار" else it.name) :=
  ⟨⟨if it.name = "" then fallbackName else it.name,
      f64TruncToInt64 (it.price * 10), nowStr⟩,
    by simp [fetchAndCache, hfind, hp], rfl⟩

/-- Witness for C8: an accepted entry with an empty upstream name is
stored under the fallback display name. -/
theorem C8_empty_name_fallback_witness :
    ∃ row : Row,
      (fetchAndCache false (.response ⟨[⟨"IR_GOLD_18K", "", 5⟩]⟩) true "t"
          none).store = some row ∧
      row.name = (if "" = "" then "طلای 18 عیار" else "") :=
  C8_empty_name_fallback ⟨[⟨"IR_GOLD_18K", "", 5⟩]⟩ ⟨"IR_GOLD_18K", "", 5⟩ "t" none
    (by simp [findGold18k]) (by norm_num)

/-- Claim C9: a set-but-invalid POLL_INTERVAL makes the discarded Atoi
error leave pollSeconds at 0, so the poll interval is 0 rather than the
60-second default, and `time.NewTicker` panics on it at startup. -/
theorem C9_invalid_poll_interval_panics (s : String) (hne : s ≠ "")
    (hbad : (goAtoi s).2 = false) :
    pollIntervalNs s = 0 ∧ newTickerPanics (pollIntervalNs s) := by
  have h1 : pollSecondsOf s = 0 := by
    unfold pollSecondsOf envOrDefault
    rw [if_neg hne]
    exact goAtoi_val_of_err s hbad
  have h2 : pollIntervalNs s = 0 := by
    unfold pollIntervalNs
    rw [h1, zero_mul]
  exact ⟨h2, by rw [newTickerPanics, h2]⟩

/-- Witness for C9: the non-numeric value "abc". -/
theorem C9_invalid_poll_interval_panics_witness :
    pollIntervalNs "abc" = 0 ∧ newTickerPanics (pollIntervalNs "abc") :=
  C9_invalid_poll_interval_panics "abc" (by decide) (by decide)

/-- Claim C10: a cached row whose stored timestamp fails to parse is
still served with status 200 — the parse error is discarded, staleness
is computed against the Go zero time, and in particular the row is
flagged stale whenever the read time is more than the threshold past
the zero time. -/
theorem C10_unparsable_timestamp_served (parse : String → Option ℤ) (row : Row)
    (now : ℤ) (hparse : parse row.fetched_at = none) :
    handleGold18k parse now (some row)
        = ⟨200, .goldJson row.name row.price_rial row.fetched_at
              (decide (staleThreshold < now - goZeroTime))⟩ ∧
    (staleThreshold < now - goZeroTime →
      handleGold18k parse now (some row)
          = ⟨200, .goldJson row.name row.price_rial row.fetched_at true⟩) := by
  constructor
  · simp [handleGold18k, hparse]
  · intro h
    simp [handleGold18k, hparse, h]

/-- Witness for C10: an unparsable timestamp read past the threshold. -/
theorem C10_unparsable_timestamp_served_witness :
    handleGold18k (fun _ => none) 300000000001 (some ⟨"g", 1, "bad"⟩)
        = ⟨200, .goldJson "g" 1 "bad"
              (decide (staleThreshold < 300000000001 - goZeroTime))⟩ ∧
    (staleThreshold < 300000000001 - goZeroTime →
      handleGold18k (fun _ => none) 300000000001 (some ⟨"g", 1, "bad"⟩)
          = ⟨200, .goldJson "g" 1 "bad" true⟩) :=
  C10_unparsable_timestamp_served (fun _ => none) ⟨"g", 1, "bad"⟩ 300000000001 rfl
